import Mathlib

/-!
Shallow embedding of the loraserver downlink scheduler, uplink-response path
and join handler (packages `internal/downlink`, `internal/uplink`,
`internal/api`), together with theorems checking the natural-language
specification against the code.

Machine integers are modelled as `Nat` with explicit `% 2^32` (`U32`) or
`% 256` where the Go code performs `uint32` / `uint8` arithmetic or casts.
External effects (gateway transmission, cache writes, application-server and
network-controller RPCs) are modelled by explicit oracle inputs recording
whether each call succeeds and what it returns; the functions return records
exposing the outcome, the transmitted packet and the side effects performed.
-/

namespace Loraserver

/-- Modulus of Go's `uint32` arithmetic. -/
def U32 : Nat := 4294967296

/-- LoRaWAN message types (`lorawan.MType`). -/
inductive MType
  | JoinRequest
  | JoinAccept
  | UnconfirmedDataUp
  | ConfirmedDataUp
  | UnconfirmedDataDown
  | ConfirmedDataDown
deriving DecidableEq

/-- A decoded MAC command (`lorawan.MACCommand`): command identifier plus
payload bytes. -/
structure MACCommand where
  CID : Nat := 0
  Payload : List Nat := []
deriving DecidableEq

/-- `lorawan.FCtrl`: the frame-control bits of the FHDR. -/
structure FCtrl where
  ADR : Bool := false
  ADRACKReq : Bool := false
  ACK : Bool := false
  FPending : Bool := false
deriving DecidableEq

/-- `lorawan.FHDR`: frame header of a data frame. -/
structure FHDR where
  DevAddr : Nat := 0
  FCtrl : FCtrl := {}
  FCnt : Nat := 0
  FOpts : List MACCommand := []
deriving DecidableEq

/-- Contents of the FRMPayload of a constructed downlink frame: empty, an
application data payload (`lorawan.DataPayload`), or MAC commands that have
been encrypted with the NwkSKey (`phy.EncryptFRMPayload`). -/
inductive FRMPayloadContent
  | empty
  | data (bytes : List Nat)
  | macEncrypted (cmds : List MACCommand)
deriving DecidableEq

/-- Whether the FRMPayload carries NwkSKey-encrypted MAC commands. -/
def FRMPayloadContent.isMACEncrypted : FRMPayloadContent → Bool
  | .macEncrypted _ => true
  | _ => false

/-- `lorawan.MACPayload` of a data frame. -/
structure MACPayload where
  FHDR : FHDR := {}
  FPort : Option Nat := none
  FRMPayload : FRMPayloadContent := .empty
deriving DecidableEq

/-- `lorawan.JoinRequestPayload`. -/
structure JoinRequestPayload where
  AppEUI : Nat := 0
  DevEUI : Nat := 0
  DevNonce : Nat := 0
deriving DecidableEq

/-- The MAC-layer payload of a PHYPayload: a data-frame payload, a
join-request payload, or raw bytes (used for frames this development never
inspects, such as the join-accept returned by the application server). -/
inductive Payload
  | mac (pl : MACPayload)
  | joinRequest (pl : JoinRequestPayload)
  | raw (bytes : List Nat)
deriving DecidableEq

/-- `lorawan.MHDR`. -/
structure MHDR where
  MType : MType
  Major : Nat := 0
deriving DecidableEq

/-- `lorawan.PHYPayload`. `micSet` records that `SetMIC` ran on the frame. -/
structure PHYPayload where
  MHDR : MHDR
  MACPayload : Payload
  micSet : Bool := false
deriving DecidableEq

/-- `band.DataRate`. -/
structure DataRate where
  Modulation : String := "LORA"
  SpreadFactor : Nat := 0
  Bandwidth : Nat := 0
  BitRate : Nat := 0
deriving DecidableEq

/-- One entry of `band.Band.MaxPayloadSize` (fields `M` and `N`). -/
structure MaxPayloadSize where
  M : Nat := 0
  N : Nat := 0
deriving DecidableEq

/-- The immutable regional band configuration (`band.Band`), with the lookup
functions the downlink path uses. `ReceiveDelay1` is the delay in
microseconds (the Go code stores a `time.Duration` and divides by
`time.Microsecond` before use). -/
structure Band where
  DataRates : List DataRate := []
  MaxPayloadSize : List MaxPayloadSize := []
  RX2Frequency : Nat := 0
  DefaultTXPower : Nat := 0
  ReceiveDelay1 : Nat := 0
  GetDataRate : DataRate → Except String Nat := fun _ => .ok 0
  GetRX1DataRate : Nat → Nat → Except String Nat := fun d _ => .ok d
  GetRX1Frequency : Nat → Except String Nat := fun f => .ok f

/-- `gw.RXInfo`: per-gateway reception metadata of an uplink. -/
structure RXInfo where
  MAC : Nat := 0
  Timestamp : Nat := 0
  Frequency : Nat := 0
  DataRate : DataRate := {}
  CodeRate : String := ""
deriving DecidableEq

/-- `gw.TXInfo`: transmission parameters handed to the gateway. -/
structure TXInfo where
  MAC : Nat := 0
  Immediately : Bool := false
  Timestamp : Nat := 0
  Frequency : Nat := 0
  Power : Nat := 0
  DataRate : DataRate := {}
  CodeRate : String := ""
deriving DecidableEq

/-- `gw.TXPacket`: a frame queued on a gateway. -/
structure TXPacket where
  TXInfo : TXInfo
  PHYPayload : PHYPayload
deriving DecidableEq

/-- `models.RXPacket`: a collected uplink with the aggregated reception set. -/
structure RXPacket where
  PHYPayload : PHYPayload
  RXInfoSet : List RXInfo := []
deriving DecidableEq

/-- `session.NodeSession`. `RXWindow` is the Go `session.RXWindow` integer
(`RX1 = 0`, `RX2 = 1`); `InstallationMargin` (a float in Go) is carried as an
opaque value that is only ever copied. -/
structure NodeSession where
  DevAddr : Nat := 0
  AppEUI : Nat := 0
  DevEUI : Nat := 0
  NwkSKey : List Nat := []
  FCntUp : Nat := 0
  FCntDown : Nat := 0
  RelaxFCnt : Bool := false
  RXWindow : Nat := 0
  RXDelay : Nat := 0
  RX1DROffset : Nat := 0
  RX2DR : Nat := 0
  CFList : Option (List Nat) := none
  ADRInterval : Nat := 0
  InstallationMargin : Nat := 0
  LastRXInfoSet : List RXInfo := []
deriving DecidableEq

/-- `session.RX1`. -/
def RX1 : Nat := 0

/-- `session.RX2`. -/
def RX2 : Nat := 1

/-- `maccommand.QueueItem`: one pending MAC command of a device's queue. -/
structure QueueItem where
  Data : List Nat := []
  FRMPayload : Bool := false
  External : Bool := false
deriving DecidableEq

/-- The typed errors of the downlink package (`downlink.ErrFPortMustNotBeZero`
and friends), the gateway/session/queue failures the oracles can inject, and
the wrappers the uplink path puts around them. -/
inductive Err
  | FPortMustNotBeZero
  | FPortMustBeZero
  | NoLastRXInfoSet
  | InvalidDataRate
  | MaxPayloadSizeExceeded
  | sendTXPacketError
  | saveNodeSessionError
  | readQueueError
  | deleteQueueItemError
  | typeAssertionError
  | bandError (msg : String)
  | invalidRX2DataRate (dr maxDR : Nat)
  | unknownRXWindow (w : Nat)
  | sendError (e : Err)
  | txInfoError (e : Err)
deriving DecidableEq

/-- gRPC status codes used by `internal/api`. -/
inductive Code
  | OK
  | InvalidArgument
  | FailedPrecondition
  | Internal
  | NotFound
  | AlreadyExists
  | Unknown
deriving DecidableEq

/-- `internal/api/errors.go`: the `errToCode` map, a total function through
`errToRPCError`'s `codes.Unknown` default (gateway and session store entries
of the map are outside this development's scope). -/
def errToCode : Err → Code
  | .FPortMustNotBeZero => .InvalidArgument
  | .FPortMustBeZero => .InvalidArgument
  | .NoLastRXInfoSet => .FailedPrecondition
  | .InvalidDataRate => .Internal
  | .MaxPayloadSizeExceeded => .InvalidArgument
  | _ => .Unknown

/-- `downlink.DataDownFrameContext`. -/
structure DataDownFrameContext where
  ACK : Bool := false
  FPort : Nat := 0
  MACCommands : List MACCommand := []
  EncryptMACCommands : Bool := false
  Confirmed : Bool := false
  MoreData : Bool := false
  Data : List Nat := []
deriving DecidableEq

/-- `DataDownFrameContext.Validate`. -/
def DataDownFrameContext.Validate (d : DataDownFrameContext) : Option Err :=
  if d.FPort = 0 ∧ 0 < d.Data.length then some .FPortMustNotBeZero
  else if 0 < d.FPort ∧ d.EncryptMACCommands = true then some .FPortMustBeZero
  else none

/-- The PHYPayload `SendDataDown` builds: MHDR from `Confirmed`, FHDR bits
from the session and the frame context, MAC commands in FOpts when not
encrypted, FPort/FRMPayload per the Go branch structure (the `FPort > 0`
branch overwrites the encrypted-MAC branch's assignments, matching the
statement order of the source). -/
def buildDataDownFrame (ns : NodeSession) (d : DataDownFrameContext) : PHYPayload :=
  { MHDR := { MType := if d.Confirmed then .ConfirmedDataDown else .UnconfirmedDataDown }
    MACPayload := .mac
      { FHDR :=
          { DevAddr := ns.DevAddr
            FCtrl :=
              { ADR := decide (ns.ADRInterval ≠ 0)
                ACK := d.ACK
                FPending := d.MoreData }
            FCnt := ns.FCntDown
            FOpts :=
              if 0 < d.MACCommands.length ∧ d.EncryptMACCommands = false then
                d.MACCommands
              else [] }
        FPort :=
          if 0 < d.FPort then some d.FPort
          else if 0 < d.MACCommands.length ∧ d.EncryptMACCommands = true then
            some d.FPort
          else none
        FRMPayload :=
          if 0 < d.FPort then .data d.Data
          else if 0 < d.MACCommands.length ∧ d.EncryptMACCommands = true then
            .macEncrypted d.MACCommands
          else .empty }
    micSet := true }

/-- Success oracles for the external calls `SendDataDown` makes:
`Gateway.SendTXPacket` and `session.SaveNodeSession`. -/
structure GatewayEffects where
  sendOK : Bool := true
  saveOK : Bool := true
deriving DecidableEq

/-- Outcome of `SendDataDown`: the returned error (if any), the node session
as left in the caller's pointer, the packet handed to the gateway (none when
the gateway call failed or was never reached), and whether the session was
written to the store. -/
structure SendDataDownResult where
  err : Option Err := none
  ns : NodeSession
  sent : Option TXPacket := none
  saved : Bool := false
deriving DecidableEq

/-- `downlink.SendDataDown`: validate, build the frame, transmit, and for
unconfirmed frames increment `FCntDown` (uint32) and save the session. -/
def SendDataDown (eff : GatewayEffects) (ns : NodeSession) (txInfo : TXInfo)
    (dataDown : DataDownFrameContext) : SendDataDownResult :=
  if dataDown.Validate ≠ none then
    { err := dataDown.Validate, ns := ns }
  else if eff.sendOK = false then
    { err := some .sendTXPacketError, ns := ns }
  else if dataDown.Confirmed = true then
    { err := none, ns := ns, sent := some ⟨txInfo, buildDataDownFrame ns dataDown⟩ }
  else if eff.saveOK = true then
    { err := none
      ns := { ns with FCntDown := (ns.FCntDown + 1) % U32 }
      sent := some ⟨txInfo, buildDataDownFrame ns dataDown⟩
      saved := true }
  else
    { err := some .saveNodeSessionError
      ns := { ns with FCntDown := (ns.FCntDown + 1) % U32 }
      sent := some ⟨txInfo, buildDataDownFrame ns dataDown⟩ }

/-- The receive-window timestamp before the RX2 extra second: the uplink
gateway timestamp plus `RXDelay` seconds when `RXDelay > 0`, otherwise plus
the band's `ReceiveDelay1`, in uint32 microseconds. -/
def rxTimestampBase (band : Band) (ns : NodeSession) (rxInfo : RXInfo) : Nat :=
  if 0 < ns.RXDelay then (rxInfo.Timestamp + (ns.RXDelay * 1000000) % U32) % U32
  else (rxInfo.Timestamp + band.ReceiveDelay1 % U32) % U32

/-- `downlink.getDataDownTXInfoAndDR`: the downlink transmission parameters
and data rate for the session's receive window. -/
def getDataDownTXInfoAndDR (band : Band) (ns : NodeSession) (rxInfo : RXInfo) :
    Except Err (TXInfo × Nat) :=
  let base : TXInfo :=
    { MAC := rxInfo.MAC, CodeRate := rxInfo.CodeRate, Power := band.DefaultTXPower }
  if ns.RXWindow = RX1 then
    match band.GetDataRate rxInfo.DataRate with
    | .error m => .error (.bandError m)
    | .ok uplinkDR =>
      match band.GetRX1DataRate uplinkDR ns.RX1DROffset with
      | .error m => .error (.bandError m)
      | .ok dr =>
        match band.GetRX1Frequency rxInfo.Frequency with
        | .error m => .error (.bandError m)
        | .ok freq =>
          .ok ({ base with
                  DataRate := band.DataRates.getD dr {}
                  Frequency := freq
                  Timestamp := rxTimestampBase band ns rxInfo }, dr)
  else if ns.RXWindow = RX2 then
    if band.DataRates.length ≤ ns.RX2DR then
      .error (.invalidRX2DataRate ns.RX2DR (band.DataRates.length - 1))
    else
      .ok ({ base with
              DataRate := band.DataRates.getD ns.RX2DR {}
              Frequency := band.RX2Frequency
              Timestamp := (rxTimestampBase band ns rxInfo + 1000000) % U32 },
           ns.RX2DR)
  else .error (.unknownRXWindow ns.RXWindow)

/-- `as.GetDataDownResponse` (application-server downlink queue response).
`FPort` is a `uint32` in the protocol. -/
structure GetDataDownResponse where
  Data : List Nat := []
  Confirmed : Bool := false
  MoreData : Bool := false
  FPort : Nat := 0
deriving DecidableEq

/-- `downlink.getDataDownFromApplication`. `asResp` is the outcome of the
`GetDataDown` RPC (`none` both for an RPC error, which the code logs and
swallows, and for a nil response). A response with `FPort = 0` or with data
larger than the band's maximum payload size for the data rate is discarded. -/
def getDataDownFromApplication (band : Band) (asResp : Option GetDataDownResponse)
    (dr : Nat) : Option GetDataDownResponse :=
  match asResp with
  | none => none
  | some resp =>
    if resp.FPort = 0 then none
    else if (band.MaxPayloadSize.getD dr {}).N < resp.Data.length then none
    else some resp

/-- Modelled from the spec: `maccommand.FilterItems` (package
`internal/maccommand` is not among the source files; only its callers are).
The spec states "filter(queueItems, encrypted, budget) → longest prefix whose
concatenated command length ≤ budget". -/
def FilterItems : List QueueItem → Bool → Nat → List QueueItem
  | [], _, _ => []
  | qi :: rest, frmPayload, maxBytes =>
    if qi.Data.length ≤ maxBytes then
      qi :: FilterItems rest frmPayload (maxBytes - qi.Data.length)
    else []

/-- Result of `getAndFilterMACQueueItems`: the selected queue items, whether
they must go encrypted into the FRMPayload, and whether the queue still holds
items that were not selected. -/
structure MACQueueFilterResult where
  items : List QueueItem := []
  encrypted : Bool := false
  pending : Bool := false
deriving DecidableEq

/-- `downlink.getAndFilterMACQueueItems` (the queue read having succeeded and
returned `queue`): empty queue short-circuits; when encrypted MAC commands
are allowed and the head of the queue is marked `FRMPayload`, filter for the
FRMPayload with the full remaining budget, otherwise filter for FOpts with
the budget capped at the LoRaWAN maximum of 15 bytes. -/
def getAndFilterMACQueueItems (queue : List QueueItem) (allowEncrypted : Bool)
    (remainingPayloadSize : Nat) : MACQueueFilterResult :=
  match queue with
  | [] => {}
  | q0 :: _ =>
    if allowEncrypted = true ∧ q0.FRMPayload = true then
      let sel := FilterItems queue true remainingPayloadSize
      { items := sel, encrypted := true, pending := decide (sel.length ≠ queue.length) }
    else
      let sel := FilterItems queue false
        (if 15 < remainingPayloadSize then 15 else remainingPayloadSize)
      { items := sel, encrypted := false, pending := decide (sel.length ≠ queue.length) }

/-- Modelled from the spec: `lorawan.MACCommand.UnmarshalBinary` (the frame
codec is an external library). A raw queue item parses to a command when it
has at least the CID byte; "Malformed commands are skipped but reported". -/
def unmarshalMACCommand : List Nat → Option MACCommand
  | [] => none
  | cid :: payload => some ⟨cid, payload⟩

/-- `downlink.macQueueItemsToMACCommands`: decode each queue item, dropping
(and reporting to the network controller) the ones that fail to parse. -/
def macQueueItemsToMACCommands (items : List QueueItem) : List MACCommand :=
  items.filterMap fun qi => unmarshalMACCommand qi.Data

/-- The `(allowEncrypted, remainingPayloadSize)` arguments `SendUplinkResponse`
passes to `getAndFilterMACQueueItems`: when the application returned a
payload, encrypted MAC commands are disallowed and the payload budget shrinks
by the payload's size. -/
def uplinkFilterArgs (band : Band) (asResp : Option GetDataDownResponse)
    (dr : Nat) : Bool × Nat :=
  match getDataDownFromApplication band asResp dr with
  | some p => (false, (band.MaxPayloadSize.getD dr {}).N - p.Data.length)
  | none => (true, (band.MaxPayloadSize.getD dr {}).N)

/-- The `DataDownFrameContext` `SendUplinkResponse` assembles before deciding
whether to transmit. `FPort` carries Go's `uint8(txPayload.FPort)` cast. -/
def uplinkDDCTX (band : Band) (asResp : Option GetDataDownResponse)
    (queue : List QueueItem) (dr : Nat) (uplinkMType : MType) :
    DataDownFrameContext :=
  let txPayload := getDataDownFromApplication band asResp dr
  let args := uplinkFilterArgs band asResp dr
  let fr := getAndFilterMACQueueItems queue args.1 args.2
  { ACK := decide (uplinkMType = .ConfirmedDataUp)
    FPort := match txPayload with | some p => p.FPort % 256 | none => 0
    MACCommands := macQueueItemsToMACCommands fr.items
    EncryptMACCommands := args.1 && fr.encrypted
    Confirmed := match txPayload with | some p => p.Confirmed | none => false
    MoreData := (match txPayload with | some p => p.MoreData | none => false) || fr.pending
    Data := match txPayload with | some p => p.Data | none => [] }

/-- Success oracles for the external calls of the uplink-response and push
paths: `maccommand.ReadQueue`, `Gateway.SendTXPacket`,
`session.SaveNodeSession` and `maccommand.DeleteQueueItem`. -/
structure UplinkEffects where
  readQueueOK : Bool := true
  sendOK : Bool := true
  saveOK : Bool := true
  deleteOK : Bool := true
deriving DecidableEq

/-- Outcome of `SendUplinkResponse` / `HandlePushDataDown`: the returned
error, the packet handed to the gateway, the queue items deleted after
transmission, the arguments of the MAC-queue filter call (when reached), and
the frame context handed to `SendDataDown` (when constructed). -/
structure SendUplinkResponseResult where
  err : Option Err := none
  sent : Option TXPacket := none
  deleted : List QueueItem := []
  filterCall : Option (Bool × Nat) := none
  ddCTX : Option DataDownFrameContext := none
deriving DecidableEq

/-- `downlink.SendUplinkResponse`: the downlink response to an uplink.
`queue` is the device's MAC-command queue as the cache holds it; `asResp` the
application server's `GetDataDown` outcome. A downlink is transmitted unless
no application payload, no ACK owed, no MAC commands and no ADRACKReq. -/
def SendUplinkResponse (band : Band) (eff : UplinkEffects)
    (asResp : Option GetDataDownResponse) (queue : List QueueItem)
    (ns : NodeSession) (rxPacket : RXPacket) : SendUplinkResponseResult :=
  match rxPacket.PHYPayload.MACPayload with
  | .mac macPL =>
    match getDataDownTXInfoAndDR band ns (rxPacket.RXInfoSet.headD {}) with
    | .error e => { err := some (.txInfoError e) }
    | .ok (txInfo, dr) =>
      let args := uplinkFilterArgs band asResp dr
      if eff.readQueueOK = false then
        { err := some .readQueueError, filterCall := some args }
      else
        let txPayload := getDataDownFromApplication band asResp dr
        let fr := getAndFilterMACQueueItems queue args.1 args.2
        let ddCTX := uplinkDDCTX band asResp queue dr rxPacket.PHYPayload.MHDR.MType
        if txPayload = none ∧ ddCTX.ACK = false ∧ ddCTX.MACCommands = [] ∧
            macPL.FHDR.FCtrl.ADRACKReq = false then
          { err := none, filterCall := some args, ddCTX := some ddCTX }
        else
          let r := SendDataDown ⟨eff.sendOK, eff.saveOK⟩ ns txInfo ddCTX
          match r.err with
          | some e =>
            { err := some (.sendError e), sent := r.sent
              filterCall := some args, ddCTX := some ddCTX }
          | none =>
            if eff.deleteOK = true then
              { err := none, sent := r.sent, deleted := fr.items
                filterCall := some args, ddCTX := some ddCTX }
            else
              { err := some .deleteQueueItemError, sent := r.sent
                filterCall := some args, ddCTX := some ddCTX }
  | _ => { err := some .typeAssertionError }

/-- `downlink.HandlePushDataDown`: unsolicited downlink using RX2 parameters
targeted at the best-heard gateway of the last uplink. -/
def HandlePushDataDown (band : Band) (eff : UplinkEffects) (queue : List QueueItem)
    (ns : NodeSession) (confirmed : Bool) (fPort : Nat) (data : List Nat) :
    SendUplinkResponseResult :=
  if ns.LastRXInfoSet.length = 0 then { err := some .NoLastRXInfoSet }
  else if band.DataRates.length ≤ ns.RX2DR then { err := some .InvalidDataRate }
  else if (band.MaxPayloadSize.getD ns.RX2DR {}).N < data.length then
    { err := some .MaxPayloadSizeExceeded }
  else
    let remaining := (band.MaxPayloadSize.getD ns.RX2DR {}).N - data.length
    if eff.readQueueOK = false then
      { err := some .readQueueError, filterCall := some (false, remaining) }
    else
      let fr := getAndFilterMACQueueItems queue false remaining
      let txInfo : TXInfo :=
        { MAC := (ns.LastRXInfoSet.headD {}).MAC
          Immediately := true
          Frequency := band.RX2Frequency
          Power := band.DefaultTXPower
          DataRate := band.DataRates.getD ns.RX2DR {}
          CodeRate := "4/5" }
      let ddCTX : DataDownFrameContext :=
        { FPort := fPort, Data := data, Confirmed := confirmed
          MACCommands := macQueueItemsToMACCommands fr.items }
      let r := SendDataDown ⟨eff.sendOK, eff.saveOK⟩ ns txInfo ddCTX
      { err :=
          match r.err with
          | some e => some e
          | none => if eff.deleteOK = true then none else some .deleteQueueItemError
        sent := r.sent
        deleted := if r.err = none ∧ eff.deleteOK = true then fr.items else []
        filterCall := some (false, remaining)
        ddCTX := some ddCTX }

/-- `as.JoinRequestResponse`: what the application server returns for a join
request. `RxDelay`, `Rx1DROffset` and `Rx2DR` are `uint32` in the protocol
and are cast to `uint8` when installed in the session. -/
structure JoinRequestResponse where
  PhyPayload : List Nat := []
  NwkSKey : List Nat := []
  RxDelay : Nat := 0
  Rx1DROffset : Nat := 0
  Rx2DR : Nat := 0
  RxWindow : Nat := 0
  CFList : List Nat := []
  RelaxFCnt : Bool := false
  AdrInterval : Nat := 0
  InstallationMargin : Nat := 0
deriving DecidableEq

/-- Outcomes of the external calls `handleCollectedJoinRequestPackets` makes,
in call order: `PHYPayload.MarshalBinary`, `session.GetRandomDevAddr`, the
application server's `JoinRequest` RPC, `PHYPayload.UnmarshalBinary` on the
returned join-accept bytes, `session.SaveNodeSession`,
`maccommand.FlushQueue` and `downlink.SendJoinAcceptResponse`. -/
structure JoinOracles where
  phyBytes : Except String (List Nat) := .ok []
  devAddr : Except String Nat := .ok 0
  joinResp : Except String JoinRequestResponse := .ok {}
  downlinkPHY : Except String PHYPayload :=
    .ok { MHDR := { MType := .JoinAccept }, MACPayload := .raw [] }
  saveOK : Bool := true
  flushOK : Bool := true
  sendJoinAcceptOK : Bool := true

/-- The externally visible side effects of the join handler, in the order
they happen. -/
inductive JoinEvent
  | savedSession (ns : NodeSession)
  | flushedQueue (devEUI : Nat)
  | sentJoinAccept (ns : NodeSession) (phy : PHYPayload)
deriving DecidableEq

/-- The errors of the join handler. -/
inductive JoinErr
  | typeAssertionError
  | marshalError (m : String)
  | devAddrError (m : String)
  | joinRequestError (m : String)
  | cfListTooLong
  | phyUnmarshalError (m : String)
  | saveError
  | flushError
  | joinAcceptError
deriving DecidableEq

/-- Outcome of the join handler: the returned error and the trace of side
effects performed. -/
structure JoinResult where
  err : Option JoinErr := none
  events : List JoinEvent := []
deriving DecidableEq

/-- The `NwkSKey` the join handler installs: Go's
`copy(nwkSKey[:], joinResp.NwkSKey)` into a zeroed 16-byte array. -/
def copiedNwkSKey (bytes : List Nat) : List Nat :=
  bytes.take 16 ++ List.replicate (16 - bytes.length) 0

/-- The fresh `NodeSession` the join handler installs from the join-request
payload, the allocated `DevAddr`, the application server's response and the
collected reception set. -/
def joinNodeSession (jrPL : JoinRequestPayload) (devAddr : Nat)
    (joinResp : JoinRequestResponse) (rxInfoSet : List RXInfo) : NodeSession :=
  { DevAddr := devAddr
    AppEUI := jrPL.AppEUI
    DevEUI := jrPL.DevEUI
    NwkSKey := copiedNwkSKey joinResp.NwkSKey
    FCntUp := 0
    FCntDown := 0
    RelaxFCnt := joinResp.RelaxFCnt
    RXWindow := joinResp.RxWindow
    RXDelay := joinResp.RxDelay % 256
    RX1DROffset := joinResp.Rx1DROffset % 256
    RX2DR := joinResp.Rx2DR % 256
    CFList := some ((joinResp.CFList ++ List.replicate 5 0).take 5)
    ADRInterval := joinResp.AdrInterval
    InstallationMargin := joinResp.InstallationMargin
    LastRXInfoSet := rxInfoSet }

/-- `uplink.handleCollectedJoinRequestPackets`: parse the join request,
allocate a random `DevAddr`, delegate to the application server, validate the
CFList size, parse the returned join-accept, install a fresh session, flush
the device's MAC-command queue and schedule the join-accept downlink. -/
def handleCollectedJoinRequestPackets (o : JoinOracles) (rxPacket : RXPacket) :
    JoinResult :=
  match rxPacket.PHYPayload.MACPayload with
  | .joinRequest jrPL =>
    match o.phyBytes with
    | .error m => { err := some (.marshalError m) }
    | .ok _ =>
      match o.devAddr with
      | .error m => { err := some (.devAddrError m) }
      | .ok devAddr =>
        match o.joinResp with
        | .error m => { err := some (.joinRequestError m) }
        | .ok joinResp =>
          if 5 < joinResp.CFList.length then { err := some .cfListTooLong }
          else
            match o.downlinkPHY with
            | .error m => { err := some (.phyUnmarshalError m) }
            | .ok downlinkPHY =>
              let ns := joinNodeSession jrPL devAddr joinResp rxPacket.RXInfoSet
              if o.saveOK = false then { err := some .saveError }
              else if o.flushOK = false then
                { err := some .flushError, events := [.savedSession ns] }
              else if o.sendJoinAcceptOK = false then
                { err := some .joinAcceptError
                  events := [.savedSession ns, .flushedQueue ns.DevEUI] }
              else
                { err := none
                  events := [.savedSession ns, .flushedQueue ns.DevEUI,
                             .sentJoinAccept ns downlinkPHY] }
  | _ => { err := some .typeAssertionError }

/-- FCnt of a transmitted data frame (0 for non-data frames). -/
def PHYPayload.fcntOf (p : PHYPayload) : Nat :=
  match p.MACPayload with
  | .mac mp => mp.FHDR.FCnt
  | _ => 0

/-- ADR bit of a transmitted data frame. -/
def TXPacket.adrBit (p : TXPacket) : Bool :=
  match p.PHYPayload.MACPayload with
  | .mac mp => mp.FHDR.FCtrl.ADR
  | _ => false

/-- ACK bit of a transmitted data frame. -/
def TXPacket.ackBit (p : TXPacket) : Bool :=
  match p.PHYPayload.MACPayload with
  | .mac mp => mp.FHDR.FCtrl.ACK
  | _ => false

/-- FPending bit of a transmitted data frame. -/
def TXPacket.fpendingBit (p : TXPacket) : Bool :=
  match p.PHYPayload.MACPayload with
  | .mac mp => mp.FHDR.FCtrl.FPending
  | _ => false

/-- FOpts of a transmitted data frame. -/
def TXPacket.foptsOf (p : TXPacket) : List MACCommand :=
  match p.PHYPayload.MACPayload with
  | .mac mp => mp.FHDR.FOpts
  | _ => []

/-- Whether a transmitted frame carries NwkSKey-encrypted MAC commands in its
FRMPayload. -/
def TXPacket.hasEncryptedMACFRM (p : TXPacket) : Bool :=
  match p.PHYPayload.MACPayload with
  | .mac mp => mp.FRMPayload.isMACEncrypted
  | _ => false

/-- Every packet `SendDataDown` hands to the gateway is the frame built from
the session and the frame context, with the given transmission parameters. -/
theorem sendDataDown_sent_eq (eff : GatewayEffects) (ns : NodeSession)
    (txInfo : TXInfo) (dataDown : DataDownFrameContext) (pk : TXPacket)
    (h : (SendDataDown eff ns txInfo dataDown).sent = some pk) :
    pk = ⟨txInfo, buildDataDownFrame ns dataDown⟩ := by
  unfold SendDataDown at h
  split_ifs at h <;> simp_all

/-- When validation passes and the gateway and session store succeed,
`SendDataDown` returns no error and hands the built frame to the gateway. -/
theorem sendDataDown_success (eff : GatewayEffects) (ns : NodeSession)
    (txInfo : TXInfo) (dataDown : DataDownFrameContext)
    (hv : dataDown.Validate = none) (hsend : eff.sendOK = true)
    (hsave : eff.saveOK = true) :
    (SendDataDown eff ns txInfo dataDown).err = none ∧
    (SendDataDown eff ns txInfo dataDown).sent =
      some ⟨txInfo, buildDataDownFrame ns dataDown⟩ := by
  unfold SendDataDown
  split_ifs with h1 h2 h3 <;> simp_all

/-- With encrypted MAC commands disallowed, `getAndFilterMACQueueItems`
filters for FOpts with the budget capped at 15 bytes and reports
`encrypted = false`. -/
theorem getAndFilter_noEncrypt (queue : List QueueItem) (r : Nat) :
    getAndFilterMACQueueItems queue false r =
      { items := FilterItems queue false (min 15 r)
        encrypted := false
        pending := decide ((FilterItems queue false (min 15 r)).length ≠ queue.length) } := by
  have hmin : (if 15 < r then 15 else r) = min 15 r := by
    split_ifs with h <;> omega
  cases queue with
  | nil => simp [getAndFilterMACQueueItems, FilterItems]
  | cons q0 rest =>
    simp only [getAndFilterMACQueueItems, false_and, if_neg, hmin]
    simp

/-- C2: for a successful `SendDataDown` of an unconfirmed frame the session's
`FCntDown` is incremented by one (uint32 arithmetic) and the session is
saved; for a confirmed frame `FCntDown` is left unchanged at send time; and
the transmitted frame's `FHDR.FCnt` carries the pre-increment `FCntDown`. -/
theorem sendDataDown_fcntDown (eff : GatewayEffects) (ns : NodeSession)
    (txInfo : TXInfo) (dataDown : DataDownFrameContext)
    (h : (SendDataDown eff ns txInfo dataDown).err = none) :
    (dataDown.Confirmed = false →
      (SendDataDown eff ns txInfo dataDown).ns.FCntDown = (ns.FCntDown + 1) % U32 ∧
      (SendDataDown eff ns txInfo dataDown).saved = true) ∧
    (dataDown.Confirmed = true →
      (SendDataDown eff ns txInfo dataDown).ns.FCntDown = ns.FCntDown) ∧
    (∀ pk, (SendDataDown eff ns txInfo dataDown).sent = some pk →
      pk.PHYPayload.fcntOf = ns.FCntDown) := by
  unfold SendDataDown at h ⊢
  split_ifs at h ⊢ with h1 h2 h3 h4 <;>
    simp_all [PHYPayload.fcntOf, buildDataDownFrame]

/-- C2 witness: a concrete successful unconfirmed send increments `FCntDown`
from 5 to 6, saves the session, and stamps 5 into the frame. -/
theorem sendDataDown_fcntDown_witness :
    ((SendDataDown {} { FCntDown := 5 } {} { FPort := 1, Data := [1, 2] }).ns.FCntDown
        = 6 ∧
      (SendDataDown {} { FCntDown := 5 } {} { FPort := 1, Data := [1, 2] }).saved
        = true) ∧
    ((SendDataDown {} { FCntDown := 5 } {} { FPort := 1, Data := [1, 2] }).sent.all
        (fun pk => pk.PHYPayload.fcntOf == 5)) = true := by
  have h := sendDataDown_fcntDown {} { FCntDown := 5 } {}
    { FPort := 1, Data := [1, 2] } (by decide)
  refine ⟨h.1 rfl, ?_⟩
  have h3 := h.2.2
  have hs : (SendDataDown {} { FCntDown := 5 } {} { FPort := 1, Data := [1, 2] }).sent
      = some ⟨{}, buildDataDownFrame { FCntDown := 5 } { FPort := 1, Data := [1, 2] }⟩ :=
    by decide
  rw [hs]
  simp [Option.all, h3 _ hs]

/-- C3: when the gateway transmission fails (validation having passed),
`SendDataDown` returns the send error, the session is unchanged, nothing was
handed to the gateway and nothing was saved. -/
theorem sendDataDown_gatewayFailure (eff : GatewayEffects) (ns : NodeSession)
    (txInfo : TXInfo) (dataDown : DataDownFrameContext)
    (hv : dataDown.Validate = none) (hs : eff.sendOK = false) :
    SendDataDown eff ns txInfo dataDown =
      { err := some .sendTXPacketError, ns := ns, sent := none, saved := false } := by
  unfold SendDataDown
  rw [if_neg (by simp [hv]), if_pos hs]

/-- C3 witness: a concrete send failure leaves the session untouched. -/
theorem sendDataDown_gatewayFailure_witness :
    SendDataDown { sendOK := false } { FCntDown := 5 } {} { FPort := 1, Data := [1] }
      = { err := some .sendTXPacketError, ns := { FCntDown := 5 }, sent := none,
          saved := false } :=
  sendDataDown_gatewayFailure { sendOK := false } { FCntDown := 5 } {}
    { FPort := 1, Data := [1] } (by decide) rfl

/-- The two validation error cases of `DataDownFrameContext.Validate`,
as exact characterisations. -/
theorem validate_iffs (dd : DataDownFrameContext) :
    (dd.Validate = some .FPortMustNotBeZero ↔ (dd.FPort = 0 ∧ dd.Data ≠ [])) ∧
    (dd.Validate = some .FPortMustBeZero ↔
      (0 < dd.FPort ∧ dd.EncryptMACCommands = true)) := by
  constructor
  · unfold DataDownFrameContext.Validate
    split_ifs with h1 h2 <;> simp_all [List.length_pos]
  · unfold DataDownFrameContext.Validate
    split_ifs with h1 h2 <;> simp_all

/-- C4: `SendDataDown` returns `FPortMustNotBeZero` exactly when the frame
context has `FPort = 0` with non-empty data and `FPortMustBeZero` exactly
when `FPort > 0` with `EncryptMACCommands` set; on a validation error it
transmits nothing and modifies no state; and both errors map to the gRPC
code `InvalidArgument`. -/
theorem validate_fport_errors (dd : DataDownFrameContext) (eff : GatewayEffects)
    (ns : NodeSession) (txInfo : TXInfo) :
    ((SendDataDown eff ns txInfo dd).err = some .FPortMustNotBeZero ↔
      (dd.FPort = 0 ∧ dd.Data ≠ [])) ∧
    ((SendDataDown eff ns txInfo dd).err = some .FPortMustBeZero ↔
      (0 < dd.FPort ∧ dd.EncryptMACCommands = true)) ∧
    (dd.Validate ≠ none →
      SendDataDown eff ns txInfo dd =
        { err := dd.Validate, ns := ns, sent := none, saved := false }) ∧
    errToCode .FPortMustNotBeZero = .InvalidArgument ∧
    errToCode .FPortMustBeZero = .InvalidArgument := by
  obtain ⟨hv1, hv2⟩ := validate_iffs dd
  refine ⟨?_, ?_, ?_, rfl, rfl⟩
  · unfold SendDataDown
    split_ifs <;> simp_all
  · unfold SendDataDown
    split_ifs <;> simp_all
  · intro hnv
    unfold SendDataDown
    rw [if_pos hnv]

/-- C4 witness: a concrete frame context with `FPort = 0` and data makes
`SendDataDown` fail with `FPortMustNotBeZero`, transmitting nothing and
leaving the session untouched, and the error maps to `InvalidArgument`. -/
theorem validate_fport_errors_witness :
    (SendDataDown {} { FCntDown := 3 } {} { Data := [7] }).err
      = some .FPortMustNotBeZero ∧
    SendDataDown {} { FCntDown := 3 } {} { Data := [7] } =
      { err := some .FPortMustNotBeZero, ns := { FCntDown := 3 }, sent := none,
        saved := false } ∧
    errToCode .FPortMustNotBeZero = .InvalidArgument := by
  have h := validate_fport_errors { Data := [7] } {} { FCntDown := 3 } {}
  refine ⟨(h.1).mpr (by simp), ?_, h.2.2.2.1⟩
  have h3 := h.2.2.1 (by decide)
  rw [h3]
  rfl

/-- C9: the ADR bit of every frame `SendDataDown` constructs — and hence of
every frame it hands to the gateway — is set exactly when the session's
`ADRInterval` is non-zero; no other input of the function influences the
bit. -/
theorem sendDataDown_adrBit (eff : GatewayEffects) (ns : NodeSession)
    (txInfo : TXInfo) (dataDown : DataDownFrameContext) :
    (TXPacket.mk txInfo (buildDataDownFrame ns dataDown)).adrBit
      = decide (ns.ADRInterval ≠ 0) ∧
    ((SendDataDown eff ns txInfo dataDown).sent.all
      (fun pk => pk.adrBit == decide (ns.ADRInterval ≠ 0))) = true := by
  refine ⟨rfl, ?_⟩
  unfold SendDataDown
  split_ifs <;> simp [Option.all, TXPacket.adrBit, buildDataDownFrame]

/-- C5: with `RXWindow = RX2` the downlink uses the session's `RX2DR` (failing
with the invalid-data-rate error when it exceeds the band's maximum), the
band's `RX2Frequency`, and the uplink timestamp plus the receive delay
(`RXDelay` seconds when positive, else the band's `ReceiveDelay1`) plus one
extra second, in uint32 microseconds. -/
theorem getDataDownTXInfo_rx2 (band : Band) (ns : NodeSession) (rxInfo : RXInfo)
    (hw : ns.RXWindow = RX2) :
    (band.DataRates.length ≤ ns.RX2DR →
      getDataDownTXInfoAndDR band ns rxInfo =
        .error (.invalidRX2DataRate ns.RX2DR (band.DataRates.length - 1))) ∧
    (ns.RX2DR < band.DataRates.length →
      getDataDownTXInfoAndDR band ns rxInfo =
        .ok ({ MAC := rxInfo.MAC
               CodeRate := rxInfo.CodeRate
               Power := band.DefaultTXPower
               DataRate := band.DataRates.getD ns.RX2DR {}
               Frequency := band.RX2Frequency
               Timestamp := (rxTimestampBase band ns rxInfo + 1000000) % U32 },
             ns.RX2DR)) := by
  have h1 : ¬ ns.RXWindow = RX1 := by rw [hw]; simp [RX1, RX2]
  constructor <;> intro h
  · unfold getDataDownTXInfoAndDR
    rw [if_neg h1, if_pos hw, if_pos h]
  · unfold getDataDownTXInfoAndDR
    rw [if_neg h1, if_pos hw, if_neg (by omega)]

/-- A small concrete band used by the witnesses: three data rates, payload
cap 51 bytes, EU868-like RX2 defaults. -/
def testBand : Band :=
  { DataRates := [{}, {}, {}]
    MaxPayloadSize := [⟨59, 51⟩, ⟨59, 51⟩, ⟨59, 51⟩]
    RX2Frequency := 869525000
    DefaultTXPower := 14
    ReceiveDelay1 := 1000000 }

/-- A concrete session listening on RX2. -/
def nsRX2 : NodeSession := { RXWindow := 1, FCntDown := 5 }

/-- A concrete collected unconfirmed data uplink heard by one gateway. -/
def rxUnconfirmed : RXPacket :=
  { PHYPayload := { MHDR := { MType := .UnconfirmedDataUp }, MACPayload := .mac {} }
    RXInfoSet := [{ Timestamp := 1000 }] }

/-- A concrete collected confirmed data uplink heard by one gateway. -/
def rxConfirmed : RXPacket :=
  { PHYPayload := { MHDR := { MType := .ConfirmedDataUp }, MACPayload := .mac {} }
    RXInfoSet := [{ Timestamp := 1000 }] }

/-- C5 witness: concrete RX2 parameters — data rate index 0, the band's RX2
frequency, and timestamp 1000 + 1 s (ReceiveDelay1) + 1 s. -/
theorem getDataDownTXInfo_rx2_witness :
    getDataDownTXInfoAndDR testBand nsRX2 { Timestamp := 1000 } =
      .ok ({ MAC := 0
             CodeRate := ""
             Power := 14
             DataRate := {}
             Frequency := 869525000
             Timestamp := 2001000 }, 0) := by
  have h := (getDataDownTXInfo_rx2 testBand nsRX2 { Timestamp := 1000 } rfl).2
    (by decide)
  rw [h]
  rfl

/-- Unfolding of the `MACCommands` field of the uplink frame context. -/
theorem uplinkDDCTX_MACCommands (band : Band) (asResp : Option GetDataDownResponse)
    (queue : List QueueItem) (dr : Nat) (mt : MType) :
    (uplinkDDCTX band asResp queue dr mt).MACCommands =
      macQueueItemsToMACCommands (getAndFilterMACQueueItems queue
        (uplinkFilterArgs band asResp dr).1 (uplinkFilterArgs band asResp dr).2).items :=
  rfl

/-- The ACK flag of the uplink frame context is set exactly for a confirmed
uplink. -/
theorem uplinkDDCTX_ACK (band : Band) (asResp : Option GetDataDownResponse)
    (queue : List QueueItem) (dr : Nat) (mt : MType) :
    ((uplinkDDCTX band asResp queue dr mt).ACK = false ↔
      ¬ mt = .ConfirmedDataUp) := by
  simp [uplinkDDCTX]

/-- The frame context `SendUplinkResponse` assembles always passes
validation, provided the application payload's `uint8`-truncated FPort is
only zero when its data is empty. -/
theorem uplinkDDCTX_validate (band : Band) (asResp : Option GetDataDownResponse)
    (queue : List QueueItem) (dr : Nat) (mt : MType)
    (h7 : ∀ p, getDataDownFromApplication band asResp dr = some p →
      p.FPort % 256 = 0 → p.Data = []) :
    (uplinkDDCTX band asResp queue dr mt).Validate = none := by
  unfold uplinkDDCTX DataDownFrameContext.Validate uplinkFilterArgs
  cases h : getDataDownFromApplication band asResp dr with
  | none => simp [h]
  | some p =>
    by_cases hp : p.FPort % 256 = 0
    · have hd := h7 p h hp
      simp [h, hp, hd]
    · simp [h, hp]

/-- Shape of `SendUplinkResponse` on the main path: the uplink carries a data
MAC payload, the TX parameters resolve, and the queue read succeeds. -/
theorem sendUplinkResponse_main (band : Band) (eff : UplinkEffects)
    (asResp : Option GetDataDownResponse) (queue : List QueueItem)
    (ns : NodeSession) (rxPacket : RXPacket) (macPL : MACPayload)
    (txInfo : TXInfo) (dr : Nat)
    (h1 : rxPacket.PHYPayload.MACPayload = .mac macPL)
    (h2 : getDataDownTXInfoAndDR band ns (rxPacket.RXInfoSet.headD {}) =
      .ok (txInfo, dr))
    (h3 : eff.readQueueOK = true) :
    SendUplinkResponse band eff asResp queue ns rxPacket =
      (if getDataDownFromApplication band asResp dr = none ∧
          (uplinkDDCTX band asResp queue dr rxPacket.PHYPayload.MHDR.MType).ACK
            = false ∧
          (uplinkDDCTX band asResp queue dr rxPacket.PHYPayload.MHDR.MType).MACCommands
            = [] ∧
          macPL.FHDR.FCtrl.ADRACKReq = false then
        { err := none
          filterCall := some (uplinkFilterArgs band asResp dr)
          ddCTX := some (uplinkDDCTX band asResp queue dr
            rxPacket.PHYPayload.MHDR.MType) }
      else
        match (SendDataDown ⟨eff.sendOK, eff.saveOK⟩ ns txInfo
            (uplinkDDCTX band asResp queue dr rxPacket.PHYPayload.MHDR.MType)).err with
        | some e =>
          { err := some (.sendError e)
            sent := (SendDataDown ⟨eff.sendOK, eff.saveOK⟩ ns txInfo
              (uplinkDDCTX band asResp queue dr rxPacket.PHYPayload.MHDR.MType)).sent
            filterCall := some (uplinkFilterArgs band asResp dr)
            ddCTX := some (uplinkDDCTX band asResp queue dr
              rxPacket.PHYPayload.MHDR.MType) }
        | none =>
          if eff.deleteOK = true then
            { err := none
              sent := (SendDataDown ⟨eff.sendOK, eff.saveOK⟩ ns txInfo
                (uplinkDDCTX band asResp queue dr rxPacket.PHYPayload.MHDR.MType)).sent
              deleted := (getAndFilterMACQueueItems queue
                (uplinkFilterArgs band asResp dr).1
                (uplinkFilterArgs band asResp dr).2).items
              filterCall := some (uplinkFilterArgs band asResp dr)
              ddCTX := some (uplinkDDCTX band asResp queue dr
                rxPacket.PHYPayload.MHDR.MType) }
          else
            { err := some .deleteQueueItemError
              sent := (SendDataDown ⟨eff.sendOK, eff.saveOK⟩ ns txInfo
                (uplinkDDCTX band asResp queue dr rxPacket.PHYPayload.MHDR.MType)).sent
              filterCall := some (uplinkFilterArgs band asResp dr)
              ddCTX := some (uplinkDDCTX band asResp queue dr
                rxPacket.PHYPayload.MHDR.MType) }) := by
  unfold SendUplinkResponse
  rw [h1, h2]
  simp [h3]

/-- An application-server response whose `uint32` FPort is 256: it passes
`getDataDownFromApplication` (FPort ≠ 0, 1 byte ≤ 51), but Go's
`uint8(txPayload.FPort)` cast truncates it to 0. -/
def asRespFPort256 : Option GetDataDownResponse := some { Data := [1], FPort := 256 }

/-- C1 counterexample: a queued application payload that fits is available
(so the claim requires a downlink), yet `SendUplinkResponse` transmits
nothing and fails: the truncated FPort 0 with non-empty data is rejected by
`Validate`. -/
theorem sendUplinkResponse_iff_counterexample :
    getDataDownFromApplication testBand asRespFPort256 0 ≠ none ∧
    (SendUplinkResponse testBand {} asRespFPort256 [] nsRX2 rxUnconfirmed).sent
      = none ∧
    (SendUplinkResponse testBand {} asRespFPort256 [] nsRX2 rxUnconfirmed).err
      = some (.sendError .FPortMustNotBeZero) := by
  refine ⟨by decide, by decide, by decide⟩

/-- C1 (amended): provided the application payload's `uint8`-truncated FPort
is only zero when the payload data is empty, `SendUplinkResponse` transmits a
downlink iff a queued application payload is available and fits, or there are
MAC commands to send after filtering, or the uplink was confirmed, or the
uplink set ADRACKReq; when none holds it returns successfully without
transmitting. -/
theorem sendUplinkResponse_iff (band : Band) (eff : UplinkEffects)
    (asResp : Option GetDataDownResponse) (queue : List QueueItem)
    (ns : NodeSession) (rxPacket : RXPacket) (macPL : MACPayload)
    (txInfo : TXInfo) (dr : Nat)
    (h1 : rxPacket.PHYPayload.MACPayload = .mac macPL)
    (h2 : getDataDownTXInfoAndDR band ns (rxPacket.RXInfoSet.headD {}) =
      .ok (txInfo, dr))
    (h3 : eff.readQueueOK = true) (h4 : eff.sendOK = true)
    (h5 : eff.saveOK = true) (h6 : eff.deleteOK = true)
    (h7 : ∀ p, getDataDownFromApplication band asResp dr = some p →
      p.FPort % 256 = 0 → p.Data = []) :
    ((SendUplinkResponse band eff asResp queue ns rxPacket).sent ≠ none ↔
      (getDataDownFromApplication band asResp dr ≠ none ∨
        macQueueItemsToMACCommands (getAndFilterMACQueueItems queue
          (uplinkFilterArgs band asResp dr).1
          (uplinkFilterArgs band asResp dr).2).items ≠ [] ∨
        rxPacket.PHYPayload.MHDR.MType = .ConfirmedDataUp ∨
        macPL.FHDR.FCtrl.ADRACKReq = true)) ∧
    ((getDataDownFromApplication band asResp dr = none ∧
        macQueueItemsToMACCommands (getAndFilterMACQueueItems queue
          (uplinkFilterArgs band asResp dr).1
          (uplinkFilterArgs band asResp dr).2).items = [] ∧
        ¬ rxPacket.PHYPayload.MHDR.MType = .ConfirmedDataUp ∧
        macPL.FHDR.FCtrl.ADRACKReq = false) →
      (SendUplinkResponse band eff asResp queue ns rxPacket).err = none ∧
      (SendUplinkResponse band eff asResp queue ns rxPacket).sent = none) := by
  have hval := uplinkDDCTX_validate band asResp queue dr
    rxPacket.PHYPayload.MHDR.MType h7
  have hsd := sendDataDown_success ⟨eff.sendOK, eff.saveOK⟩ ns txInfo
    (uplinkDDCTX band asResp queue dr rxPacket.PHYPayload.MHDR.MType) hval h4 h5
  have hmain := sendUplinkResponse_main band eff asResp queue ns rxPacket macPL
    txInfo dr h1 h2 h3
  have hack := uplinkDDCTX_ACK band asResp queue dr rxPacket.PHYPayload.MHDR.MType
  have hcmds := uplinkDDCTX_MACCommands band asResp queue dr
    rxPacket.PHYPayload.MHDR.MType
  rw [hmain]
  by_cases hc : getDataDownFromApplication band asResp dr = none ∧
      (uplinkDDCTX band asResp queue dr rxPacket.PHYPayload.MHDR.MType).ACK
        = false ∧
      (uplinkDDCTX band asResp queue dr rxPacket.PHYPayload.MHDR.MType).MACCommands
        = [] ∧
      macPL.FHDR.FCtrl.ADRACKReq = false
  · rw [if_pos hc]
    obtain ⟨hca, hcb, hcc, hcd⟩ := hc
    constructor
    · simp only []
      constructor
      · intro hs
        exact absurd rfl hs
      · intro hd
        rcases hd with hd | hd | hd | hd
        · exact absurd hca hd
        · rw [hcmds] at hcc
          exact absurd hcc hd
        · exact absurd hd (hack.mp hcb)
        · rw [hcd] at hd
          exact absurd hd (by simp)
    · intro _
      exact ⟨rfl, rfl⟩
  · rw [if_neg hc]
    rw [hsd.1, hsd.2]
    rw [if_pos h6]
    constructor
    · simp only []
      constructor
      · intro _
        by_cases ha : getDataDownFromApplication band asResp dr = none
        · by_cases hb : macQueueItemsToMACCommands (getAndFilterMACQueueItems queue
              (uplinkFilterArgs band asResp dr).1
              (uplinkFilterArgs band asResp dr).2).items = []
          · by_cases hm : rxPacket.PHYPayload.MHDR.MType = .ConfirmedDataUp
            · exact Or.inr (Or.inr (Or.inl hm))
            · by_cases hr : macPL.FHDR.FCtrl.ADRACKReq = true
              · exact Or.inr (Or.inr (Or.inr hr))
              · exact absurd ⟨ha, hack.mpr hm, by rw [hcmds]; exact hb,
                  by simpa using hr⟩ hc
          · exact Or.inr (Or.inl hb)
        · exact Or.inl ha
      · intro _
        simp
    · intro hd
      obtain ⟨hda, hdb, hdc, hdd⟩ := hd
      exact absurd ⟨hda, hack.mpr hdc, by rw [hcmds]; exact hdb, hdd⟩ hc

/-- C1 witness: a confirmed uplink with empty queue and no application
payload gets a downlink (the ACK), and the no-reason case returns quietly. -/
theorem sendUplinkResponse_iff_witness :
    (SendUplinkResponse testBand {} none [] nsRX2 rxConfirmed).sent ≠ none ∧
    (SendUplinkResponse testBand {} none [] nsRX2 rxUnconfirmed).err = none ∧
    (SendUplinkResponse testBand {} none [] nsRX2 rxUnconfirmed).sent = none := by
  constructor
  · exact (sendUplinkResponse_iff testBand {} none [] nsRX2 rxConfirmed {}
      { MAC := 0, CodeRate := "", Power := 14, DataRate := {},
        Frequency := 869525000, Timestamp := 2001000 } 0 rfl rfl rfl rfl
      rfl rfl (by intro p hp; simp [getDataDownFromApplication] at hp)).1.mpr
      (Or.inr (Or.inr (Or.inl rfl)))
  · exact (sendUplinkResponse_iff testBand {} none [] nsRX2 rxUnconfirmed {}
      { MAC := 0, CodeRate := "", Power := 14, DataRate := {},
        Frequency := 869525000, Timestamp := 2001000 } 0 rfl rfl rfl rfl
      rfl rfl (by intro p hp; simp [getDataDownFromApplication] at hp)).2
      (by refine ⟨rfl, by decide, by decide, rfl⟩)

/-- On the main path the filter-call arguments and the assembled frame
context recorded in the result are the same in every branch. -/
theorem sendUplinkResponse_calls (band : Band) (eff : UplinkEffects)
    (asResp : Option GetDataDownResponse) (queue : List QueueItem)
    (ns : NodeSession) (rxPacket : RXPacket) (macPL : MACPayload)
    (txInfo : TXInfo) (dr : Nat)
    (h1 : rxPacket.PHYPayload.MACPayload = .mac macPL)
    (h2 : getDataDownTXInfoAndDR band ns (rxPacket.RXInfoSet.headD {}) =
      .ok (txInfo, dr))
    (h3 : eff.readQueueOK = true) :
    (SendUplinkResponse band eff asResp queue ns rxPacket).filterCall =
      some (uplinkFilterArgs band asResp dr) ∧
    (SendUplinkResponse band eff asResp queue ns rxPacket).ddCTX =
      some (uplinkDDCTX band asResp queue dr rxPacket.PHYPayload.MHDR.MType) := by
  rw [sendUplinkResponse_main band eff asResp queue ns rxPacket macPL txInfo dr
    h1 h2 h3]
  constructor <;> (repeat' split) <;> rfl

/-- On the main path every transmitted packet is the frame built from the
session and the assembled frame context, with the resolved TX parameters. -/
theorem sendUplinkResponse_sent_eq (band : Band) (eff : UplinkEffects)
    (asResp : Option GetDataDownResponse) (queue : List QueueItem)
    (ns : NodeSession) (rxPacket : RXPacket) (macPL : MACPayload)
    (txInfo : TXInfo) (dr : Nat) (pk : TXPacket)
    (h1 : rxPacket.PHYPayload.MACPayload = .mac macPL)
    (h2 : getDataDownTXInfoAndDR band ns (rxPacket.RXInfoSet.headD {}) =
      .ok (txInfo, dr))
    (h3 : eff.readQueueOK = true)
    (hpk : (SendUplinkResponse band eff asResp queue ns rxPacket).sent = some pk) :
    pk = ⟨txInfo, buildDataDownFrame ns
      (uplinkDDCTX band asResp queue dr rxPacket.PHYPayload.MHDR.MType)⟩ := by
  rw [sendUplinkResponse_main band eff asResp queue ns rxPacket macPL txInfo dr
    h1 h2 h3] at hpk
  revert hpk
  (repeat' split) <;> intro hpk <;>
    first
      | exact sendDataDown_sent_eq _ _ _ _ _ hpk
      | simp at hpk

/-- With `EncryptMACCommands` unset, the built frame carries the MAC commands
in FOpts and nothing encrypted in the FRMPayload. -/
theorem buildFrame_noEncrypt (txInfo : TXInfo) (ns : NodeSession)
    (dd : DataDownFrameContext) (h : dd.EncryptMACCommands = false) :
    (TXPacket.mk txInfo (buildDataDownFrame ns dd)).foptsOf = dd.MACCommands ∧
    (TXPacket.mk txInfo (buildDataDownFrame ns dd)).hasEncryptedMACFRM = false := by
  constructor
  · cases hm : dd.MACCommands <;>
      simp [buildDataDownFrame, TXPacket.foptsOf, h, hm]
  · simp only [buildDataDownFrame, TXPacket.hasEncryptedMACFRM, h]
    split_ifs <;> simp_all [FRMPayloadContent.isMACEncrypted]

/-- C6: when the application server returned a payload, the MAC-queue filter
runs with encrypted commands disallowed and the budget left by the payload,
the frame context never sets `EncryptMACCommands`, its MAC commands are the
FOpts filter selection under the 15-byte cap, and any transmitted frame
carries them in FOpts with nothing encrypted in the FRMPayload. -/
theorem sendUplinkResponse_payload_foptsOnly (band : Band) (eff : UplinkEffects)
    (asResp : Option GetDataDownResponse) (queue : List QueueItem)
    (ns : NodeSession) (rxPacket : RXPacket) (macPL : MACPayload)
    (txInfo : TXInfo) (dr : Nat) (p : GetDataDownResponse)
    (h1 : rxPacket.PHYPayload.MACPayload = .mac macPL)
    (h2 : getDataDownTXInfoAndDR band ns (rxPacket.RXInfoSet.headD {}) =
      .ok (txInfo, dr))
    (h3 : eff.readQueueOK = true)
    (h4 : getDataDownFromApplication band asResp dr = some p) :
    (SendUplinkResponse band eff asResp queue ns rxPacket).filterCall =
      some (false, (band.MaxPayloadSize.getD dr {}).N - p.Data.length) ∧
    ∃ dd, (SendUplinkResponse band eff asResp queue ns rxPacket).ddCTX = some dd ∧
      dd.EncryptMACCommands = false ∧
      dd.MACCommands = macQueueItemsToMACCommands (FilterItems queue false
        (min 15 ((band.MaxPayloadSize.getD dr {}).N - p.Data.length))) ∧
      ∀ pk, (SendUplinkResponse band eff asResp queue ns rxPacket).sent = some pk →
        pk.foptsOf = dd.MACCommands ∧ pk.hasEncryptedMACFRM = false := by
  have hargs : uplinkFilterArgs band asResp dr =
      (false, (band.MaxPayloadSize.getD dr {}).N - p.Data.length) := by
    unfold uplinkFilterArgs
    rw [h4]
  have hcalls := sendUplinkResponse_calls band eff asResp queue ns rxPacket macPL
    txInfo dr h1 h2 h3
  have hEnc : (uplinkDDCTX band asResp queue dr
      rxPacket.PHYPayload.MHDR.MType).EncryptMACCommands = false := by
    have hshape : (uplinkDDCTX band asResp queue dr
        rxPacket.PHYPayload.MHDR.MType).EncryptMACCommands =
      ((uplinkFilterArgs band asResp dr).1 &&
        (getAndFilterMACQueueItems queue (uplinkFilterArgs band asResp dr).1
          (uplinkFilterArgs band asResp dr).2).encrypted) := rfl
    rw [hshape, hargs]
    simp
  refine ⟨by rw [hcalls.1, hargs],
    uplinkDDCTX band asResp queue dr rxPacket.PHYPayload.MHDR.MType,
    hcalls.2, hEnc, ?_, ?_⟩
  · rw [uplinkDDCTX_MACCommands, hargs, getAndFilter_noEncrypt]
  · intro pk hpk
    have := sendUplinkResponse_sent_eq band eff asResp queue ns rxPacket macPL
      txInfo dr pk h1 h2 h3 hpk
    rw [this]
    exact buildFrame_noEncrypt txInfo ns _ hEnc

/-- C6 witness: a concrete uplink with a queued payload and one FOpts MAC
command in the queue — the filter runs with (false, 49), the command goes to
FOpts, nothing is encrypted. -/
theorem sendUplinkResponse_payload_foptsOnly_witness :
    (SendUplinkResponse testBand {} (some { Data := [9, 9], FPort := 1 })
        [{ Data := [6, 1] }] nsRX2 rxUnconfirmed).filterCall =
      some (false, 49) ∧
    (SendUplinkResponse testBand {} (some { Data := [9, 9], FPort := 1 })
        [{ Data := [6, 1] }] nsRX2 rxUnconfirmed).ddCTX.all
      (fun dd => !dd.EncryptMACCommands &&
        (dd.MACCommands == [{ CID := 6, Payload := [1] }])) = true := by
  have h := sendUplinkResponse_payload_foptsOnly testBand {}
    (some { Data := [9, 9], FPort := 1 }) [{ Data := [6, 1] }] nsRX2
    rxUnconfirmed {}
    { MAC := 0, CodeRate := "", Power := 14, DataRate := {},
      Frequency := 869525000, Timestamp := 2001000 } 0
    { Data := [9, 9], FPort := 1 } rfl rfl rfl rfl
  obtain ⟨hfc, dd, hdd, hEnc, hcmds, _⟩ := h
  constructor
  · rw [hfc]
    decide
  · rw [hdd]
    simp only [Option.all, hEnc, Bool.not_false, Bool.true_and]
    rw [hcmds]
    decide

/-- The `pending` flag of the MAC-queue filter is set exactly when the
selection is shorter than the queue. -/
theorem getAndFilter_pending (queue : List QueueItem) (allowEncrypted : Bool)
    (r : Nat) :
    (getAndFilterMACQueueItems queue allowEncrypted r).pending =
      decide ((getAndFilterMACQueueItems queue allowEncrypted r).items.length ≠
        queue.length) := by
  cases queue with
  | nil => simp [getAndFilterMACQueueItems]
  | cons q0 rest =>
    simp only [getAndFilterMACQueueItems]
    split_ifs <;> simp

/-- C7: in a downlink transmitted by `SendUplinkResponse`, FPending is set
iff the application payload's MoreData flag is set or MAC-queue items remain
after filtering (selection shorter than the queue), and ACK is set iff the
uplink was a ConfirmedDataUp. -/
theorem sendUplinkResponse_fctrlBits (band : Band) (eff : UplinkEffects)
    (asResp : Option GetDataDownResponse) (queue : List QueueItem)
    (ns : NodeSession) (rxPacket : RXPacket) (macPL : MACPayload)
    (txInfo : TXInfo) (dr : Nat) (pk : TXPacket)
    (h1 : rxPacket.PHYPayload.MACPayload = .mac macPL)
    (h2 : getDataDownTXInfoAndDR band ns (rxPacket.RXInfoSet.headD {}) =
      .ok (txInfo, dr))
    (h3 : eff.readQueueOK = true)
    (hpk : (SendUplinkResponse band eff asResp queue ns rxPacket).sent = some pk) :
    (pk.fpendingBit = ((match getDataDownFromApplication band asResp dr with
        | some p => p.MoreData
        | none => false) ||
      decide ((getAndFilterMACQueueItems queue (uplinkFilterArgs band asResp dr).1
          (uplinkFilterArgs band asResp dr).2).items.length ≠ queue.length))) ∧
    (pk.ackBit = true ↔ rxPacket.PHYPayload.MHDR.MType = .ConfirmedDataUp) := by
  have heq := sendUplinkResponse_sent_eq band eff asResp queue ns rxPacket macPL
    txInfo dr pk h1 h2 h3 hpk
  rw [heq]
  constructor
  · show (uplinkDDCTX band asResp queue dr rxPacket.PHYPayload.MHDR.MType).MoreData
      = _
    have hshape : (uplinkDDCTX band asResp queue dr
        rxPacket.PHYPayload.MHDR.MType).MoreData =
      ((match getDataDownFromApplication band asResp dr with
        | some p => p.MoreData
        | none => false) ||
      (getAndFilterMACQueueItems queue (uplinkFilterArgs band asResp dr).1
        (uplinkFilterArgs band asResp dr).2).pending) := rfl
    rw [hshape, getAndFilter_pending]
  · show (uplinkDDCTX band asResp queue dr rxPacket.PHYPayload.MHDR.MType).ACK
      = true ↔ _
    simp [uplinkDDCTX]

/-- The ACK-only downlink the server produces for a confirmed uplink with
nothing queued: unconfirmed, ACK set, FCnt 5, empty FOpts and FRMPayload. -/
def pkACK : TXPacket :=
  ⟨{ MAC := 0, CodeRate := "", Power := 14, DataRate := {},
     Frequency := 869525000, Timestamp := 2001000 },
   { MHDR := { MType := .UnconfirmedDataDown }
     MACPayload := .mac
       { FHDR := { DevAddr := 0, FCtrl := { ACK := true }, FCnt := 5, FOpts := [] }
         FPort := none
         FRMPayload := .empty }
     micSet := true }⟩

/-- C7 witness: the concrete ACK-only downlink has ACK set and FPending
clear. -/
theorem sendUplinkResponse_fctrlBits_witness :
    pkACK.ackBit = true ∧ pkACK.fpendingBit = false := by
  have h := sendUplinkResponse_fctrlBits testBand {} none [] nsRX2 rxConfirmed {}
    { MAC := 0, CodeRate := "", Power := 14, DataRate := {},
      Frequency := 869525000, Timestamp := 2001000 } 0 pkACK rfl rfl rfl
    (by decide)
  refine ⟨h.2.mpr rfl, ?_⟩
  rw [h.1]
  decide

/-- A frame context with `EncryptMACCommands` unset never produces a frame
with encrypted MAC commands in the FRMPayload. -/
theorem sendDataDown_sent_noEncrypt (eff : GatewayEffects) (ns : NodeSession)
    (txInfo : TXInfo) (dd : DataDownFrameContext)
    (h : dd.EncryptMACCommands = false) :
    ((SendDataDown eff ns txInfo dd).sent.all
      fun pk => !pk.hasEncryptedMACFRM) = true := by
  have hb := (buildFrame_noEncrypt txInfo ns dd h).2
  unfold SendDataDown
  split_ifs <;> simp [Option.all, hb]

/-- C10: `HandlePushDataDown` always calls the MAC-queue filter with
encrypted commands disallowed, never sets `EncryptMACCommands` on the frame
context, and never transmits a frame whose FRMPayload holds encrypted MAC
commands — whatever the queue contents (in particular when the head of the
queue is marked `FRMPayload`). -/
theorem handlePushDataDown_noEncryptedMAC (band : Band) (eff : UplinkEffects)
    (queue : List QueueItem) (ns : NodeSession) (confirmed : Bool) (fPort : Nat)
    (data : List Nat) :
    ((HandlePushDataDown band eff queue ns confirmed fPort data).filterCall.all
      fun c => !c.1) = true ∧
    ((HandlePushDataDown band eff queue ns confirmed fPort data).ddCTX.all
      fun dd => !dd.EncryptMACCommands) = true ∧
    ((HandlePushDataDown band eff queue ns confirmed fPort data).sent.all
      fun pk => !pk.hasEncryptedMACFRM) = true := by
  unfold HandlePushDataDown
  refine ⟨?_, ?_, ?_⟩ <;> split_ifs <;>
    first
      | rfl
      | exact sendDataDown_sent_noEncrypt _ _ _ _ rfl

/-- C8: a successfully handled join request installs the fresh session — with
`FCntUp = 0`, `FCntDown = 0`, the `NwkSKey` and the radio parameters from the
application server's response, and `LastRXInfoSet` equal to the collected
reception set — saves it, then flushes the device's MAC-command queue, and
only then schedules the join-accept downlink. -/
theorem joinHandler_installs (o : JoinOracles) (rxPacket : RXPacket)
    (jrPL : JoinRequestPayload) (b : List Nat) (addr : Nat)
    (resp : JoinRequestResponse) (dl : PHYPayload)
    (h1 : rxPacket.PHYPayload.MACPayload = .joinRequest jrPL)
    (h2 : o.phyBytes = .ok b) (h3 : o.devAddr = .ok addr)
    (h4 : o.joinResp = .ok resp) (h5 : resp.CFList.length ≤ 5)
    (h6 : o.downlinkPHY = .ok dl) (h7 : o.saveOK = true) (h8 : o.flushOK = true)
    (h9 : o.sendJoinAcceptOK = true) (h10 : resp.NwkSKey.length = 16) :
    handleCollectedJoinRequestPackets o rxPacket =
      { err := none
        events :=
          [.savedSession (joinNodeSession jrPL addr resp rxPacket.RXInfoSet),
           .flushedQueue jrPL.DevEUI,
           .sentJoinAccept (joinNodeSession jrPL addr resp rxPacket.RXInfoSet) dl] } ∧
    (joinNodeSession jrPL addr resp rxPacket.RXInfoSet).FCntUp = 0 ∧
    (joinNodeSession jrPL addr resp rxPacket.RXInfoSet).FCntDown = 0 ∧
    (joinNodeSession jrPL addr resp rxPacket.RXInfoSet).NwkSKey = resp.NwkSKey ∧
    (joinNodeSession jrPL addr resp rxPacket.RXInfoSet).DevAddr = addr ∧
    (joinNodeSession jrPL addr resp rxPacket.RXInfoSet).DevEUI = jrPL.DevEUI ∧
    (joinNodeSession jrPL addr resp rxPacket.RXInfoSet).AppEUI = jrPL.AppEUI ∧
    (joinNodeSession jrPL addr resp rxPacket.RXInfoSet).RelaxFCnt =
      resp.RelaxFCnt ∧
    (joinNodeSession jrPL addr resp rxPacket.RXInfoSet).RXWindow = resp.RxWindow ∧
    (joinNodeSession jrPL addr resp rxPacket.RXInfoSet).RXDelay =
      resp.RxDelay % 256 ∧
    (joinNodeSession jrPL addr resp rxPacket.RXInfoSet).RX1DROffset =
      resp.Rx1DROffset % 256 ∧
    (joinNodeSession jrPL addr resp rxPacket.RXInfoSet).RX2DR =
      resp.Rx2DR % 256 ∧
    (joinNodeSession jrPL addr resp rxPacket.RXInfoSet).CFList =
      some ((resp.CFList ++ List.replicate 5 0).take 5) ∧
    (joinNodeSession jrPL addr resp rxPacket.RXInfoSet).ADRInterval =
      resp.AdrInterval ∧
    (joinNodeSession jrPL addr resp rxPacket.RXInfoSet).InstallationMargin =
      resp.InstallationMargin ∧
    (joinNodeSession jrPL addr resp rxPacket.RXInfoSet).LastRXInfoSet =
      rxPacket.RXInfoSet := by
  refine ⟨?_, rfl, rfl, ?_, rfl, rfl, rfl, rfl, rfl, rfl, rfl, rfl, rfl, rfl,
    rfl, rfl⟩
  · unfold handleCollectedJoinRequestPackets
    rw [h1, h2, h3, h4, h6]
    simp [h7, h8, h9, joinNodeSession,
      show ¬ 5 < resp.CFList.length from by omega]
  · show copiedNwkSKey resp.NwkSKey = resp.NwkSKey
    unfold copiedNwkSKey
    rw [h10]
    simp only [Nat.sub_self, List.replicate_zero, List.append_nil]
    rw [← h10, List.take_length]

/-- A concrete application-server join response. -/
def joinRespX : JoinRequestResponse :=
  { NwkSKey := List.replicate 16 7
    RxDelay := 1
    Rx1DROffset := 0
    Rx2DR := 2
    RxWindow := 1
    CFList := [868100000]
    RelaxFCnt := true
    AdrInterval := 10
    InstallationMargin := 5 }

/-- Join oracles where every external call succeeds with `joinRespX`. -/
def joinOraclesX : JoinOracles := { joinResp := .ok joinRespX }

/-- A concrete collected join request. -/
def rxJoin : RXPacket :=
  { PHYPayload :=
      { MHDR := { MType := .JoinRequest }
        MACPayload := .joinRequest { AppEUI := 1, DevEUI := 2, DevNonce := 3 } }
    RXInfoSet := [{}] }

/-- C8 witness: the concrete join request installs the fresh session, flushes
the queue of DevEUI 2 and schedules the join accept, in that order. -/
theorem joinHandler_installs_witness :
    handleCollectedJoinRequestPackets joinOraclesX rxJoin =
      { err := none
        events :=
          [.savedSession (joinNodeSession { AppEUI := 1, DevEUI := 2, DevNonce := 3 }
              0 joinRespX rxJoin.RXInfoSet),
           .flushedQueue 2,
           .sentJoinAccept (joinNodeSession { AppEUI := 1, DevEUI := 2, DevNonce := 3 }
              0 joinRespX rxJoin.RXInfoSet)
             { MHDR := { MType := .JoinAccept }, MACPayload := .raw [] }] } :=
  (joinHandler_installs joinOraclesX rxJoin { AppEUI := 1, DevEUI := 2, DevNonce := 3 }
    [] 0 joinRespX { MHDR := { MType := .JoinAccept }, MACPayload := .raw [] }
    rfl rfl rfl rfl (by decide) rfl rfl rfl rfl (by decide)).1

end Loraserver
